import Mathlib

/-!
Shallow embedding of the WorkBuddy core (session tracker, reminder
scheduler, time utilities) together with theorems checking the
natural-language specification against it.

Source files embedded:
  * src/utils/time_utils.py       (seconds_to_hms)
  * src/tracker/scheduler.py      (ReminderScheduler)
  * src/tracker/activity_tracker.py (WindowsActivityTracker)
  * src/db/database.py            (DatabaseManager, as a pure log of calls)

Machine integers are modelled as Nat/Int; timestamps are integer seconds;
fallible code returns Option or Except.
-/

/-! ## Time utilities (src/utils/time_utils.py) -/

/-- Embedding of seconds_to_hms: hours = seconds // 3600,
minutes = (seconds % 3600) // 60, secs = seconds % 60, with Python
floor-division and floor-modulo on arbitrary integers. -/
def seconds_to_hms (seconds : Int) : Int × Int × Int :=
  (seconds.fdiv 3600, (seconds.fmod 3600).fdiv 60, seconds.fmod 60)

/-! ## Time-of-day values and parsing -/

/-- Time of day as hour, minute, second; embeds datetime.time at the
second granularity used by this codebase. -/
structure Tod where
  hour : Nat
  minute : Nat
  second : Nat
deriving DecidableEq, Repr

/-- Seconds since midnight; datetime.time comparisons are equivalent to
comparing this value at second granularity. -/
def Tod.toSeconds (t : Tod) : Nat :=
  t.hour * 3600 + t.minute * 60 + t.second

/-- Split a character list at every colon, mirroring how an ISO time
string is cut into hour, minute and second fields. -/
def splitColons (cs : List Char) : List (List Char) :=
  match cs with
  | [] => [[]]
  | c :: rest =>
      let r := splitColons rest
      if c = ':' then [] :: r
      else
        match r with
        | [] => [[c]]
        | g :: gs => (c :: g) :: gs

/-- Numeric value of a decimal digit character, none otherwise. -/
def digitVal (c : Char) : Option Nat :=
  if c.isDigit then some (c.toNat - 48) else none

/-- Parse a 2-digit decimal field of an ISO time string. -/
def parseTwoDigits (cs : List Char) : Option Nat :=
  match cs with
  | [a, b] =>
      match digitVal a, digitVal b with
      | some x, some y => some (x * 10 + y)
      | _, _ => none
  | _ => none

/-- Embedding of datetime.time.fromisoformat restricted to the
"HH:MM" and "HH:MM:SS" shapes used by this codebase; any other string
yields none (the Python call raises ValueError). -/
def time_fromisoformat (s : String) : Option Tod :=
  match splitColons s.toList with
  | [h, m] =>
      match parseTwoDigits h, parseTwoDigits m with
      | some hh, some mm =>
          if hh < 24 ∧ mm < 60 then some ⟨hh, mm, 0⟩ else none
      | _, _ => none
  | [h, m, sec] =>
      match parseTwoDigits h, parseTwoDigits m, parseTwoDigits sec with
      | some hh, some mm, some ss =>
          if hh < 24 ∧ mm < 60 ∧ ss < 60 then some ⟨hh, mm, ss⟩ else none
      | _, _, _ => none
  | _ => none

/-! ## Scheduler settings (src/tracker/scheduler.py) -/

/-- Embedding of the settings dictionary with every key present, so that
settings.get(key, default) is plain field access; the defaults of
ReminderScheduler.default_intervals and load_settings are the field
defaults of initialSettings below. -/
structure Settings where
  notifications_enabled : Bool
  work_days_only : Bool
  work_start_time : String
  work_end_time : String
  break_interval : Nat
  hydration_interval : Nat
  inspiration_interval : Nat
  daily_summary_time : String
deriving DecidableEq, Repr

/-- Default settings created by load_settings when no settings file
exists. -/
def initialSettings : Settings :=
  { notifications_enabled := true
    work_days_only := true
    work_start_time := "09:00"
    work_end_time := "18:00"
    break_interval := 45
    hydration_interval := 120
    inspiration_interval := 180
    daily_summary_time := "17:00" }

/-- Embedding of ReminderScheduler.is_work_hours: parse both bounds and
compare the current time-of-day against them inclusively; any exception
(either parse failing) makes the whole check return True. -/
def is_work_hours (st : Settings) (now : Tod) : Bool :=
  match time_fromisoformat st.work_start_time,
        time_fromisoformat st.work_end_time with
  | some ws, some we =>
      decide (ws.toSeconds ≤ now.toSeconds) && decide (now.toSeconds ≤ we.toSeconds)
  | _, _ => true

/-- Embedding of ReminderScheduler.is_work_day; weekday follows Python
datetime.weekday with 0 = Monday, 6 = Sunday. -/
def is_work_day (st : Settings) (weekday : Nat) : Bool :=
  if ¬ st.work_days_only then true
  else decide (weekday < 5)

/-- Embedding of ReminderScheduler.should_send_reminder. -/
def should_send_reminder (st : Settings) (weekday : Nat) (now : Tod) : Bool :=
  if ¬ st.notifications_enabled then false
  else if ¬ is_work_day st weekday then false
  else if ¬ is_work_hours st now then false
  else true

/-! ## Usage database (src/db/database.py), as a pure log -/

/-- Row of the app_usage table; id of the row at list index i is i + 1,
matching sqlite rowids which start at 1. -/
structure UsageRecord where
  app_name : String
  start_time : Nat
  end_time : Option Nat
  duration_seconds : Option Nat
deriving DecidableEq, Repr

/-- Trace of calls handed to the persistence collaborator
(DatabaseManager.log_app_usage and DatabaseManager.update_app_usage). -/
inductive DbCall where
  | log (app_name : String) (start_time : Nat)
  | update (usage_id : Nat) (end_time duration_seconds : Nat)
deriving DecidableEq, Repr

/-- Database state: the app_usage rows plus the trace of persistence
calls made so far. -/
structure Db where
  rows : List UsageRecord
  calls : List DbCall
deriving DecidableEq, Repr

/-- Embedding of DatabaseManager.log_app_usage as used by the tracker:
insert a row with no end_time and no duration, return its rowid. -/
def Db.log_app_usage (db : Db) (app : String) (start : Nat) : Db × Nat :=
  ({ rows := db.rows ++ [⟨app, start, none, none⟩],
     calls := db.calls ++ [.log app start] },
   db.rows.length + 1)

/-- Embedding of DatabaseManager.update_app_usage: set end_time and
duration_seconds on the row with the given id. -/
def Db.update_app_usage (db : Db) (id : Nat) (endT dur : Nat) : Db :=
  { rows := db.rows.mapIdx fun i r =>
      if i + 1 = id then { r with end_time := some endT, duration_seconds := some dur }
      else r,
    calls := db.calls ++ [.update id endT dur] }

/-! ## Activity tracker (src/tracker/activity_tracker.py) -/

/-- Embedding of the all-occurrence replacement
process_name.replace(".exe", "") from normalize_app_name. -/
def stripExeAll (cs : List Char) : List Char :=
  match cs with
  | '.' :: 'e' :: 'x' :: 'e' :: rest => stripExeAll rest
  | c :: rest => c :: stripExeAll rest
  | [] => []

/-- Window-title suffixes removed by normalize_app_name. -/
def commonSuffixes : List (List Char) :=
  [" - Google Chrome".toList, " - Mozilla Firefox".toList,
   " - Microsoft Edge".toList, " - Visual Studio Code".toList,
   " - Notepad++".toList]

/-- Strip the first matching common suffix from a window title,
mirroring the for-loop with break in normalize_app_name. -/
def stripFirstSuffix (title : List Char) : List Char :=
  match commonSuffixes.find? (fun suf => suf.isSuffixOf title) with
  | some suf => title.take (title.length - suf.length)
  | none => title

/-- Embedding of WindowsActivityTracker.normalize_app_name; Python
string truthiness on str arguments is the empty-string test. -/
def normalize_app_name (window_title process_name : String) : String :=
  if window_title = "" ∧ process_name = "" then "Unknown"
  else
    let app_name :=
      if process_name ≠ "" then stripExeAll process_name.toList
      else "Unknown".toList
    if window_title ≠ "" then
      let ct := stripFirstSuffix window_title.toList
      let ct := if ct.length > 50 then ct.take 47 ++ "...".toList else ct
      if ct ≠ app_name then
        (app_name ++ " (".toList ++ ct ++ ")".toList).asString
      else app_name.asString
    else app_name.asString

/-- Abstract in-memory session lifecycle events: one opened event per
call to start_session, one closed event per call to end_session. -/
inductive SEvent where
  | opened (app : String) (time : Nat)
  | closed
deriving DecidableEq, Repr

/-- Embedding of the WindowsActivityTracker fields touched by the
tracking logic, plus the database and the session-event trace.
Timestamps are integer seconds. -/
structure TrackerState where
  current_app : Option String
  current_session_id : Option Nat
  session_start_time : Option Nat
  is_running : Bool
  idle_threshold : Nat
  db : Db
  events : List SEvent
deriving DecidableEq, Repr

/-- Tracker state right after WindowsActivityTracker init:
no open session, idle_threshold 300, empty database. -/
def initTracker : TrackerState :=
  { current_app := none, current_session_id := none, session_start_time := none,
    is_running := false, idle_threshold := 300, db := ⟨[], []⟩, events := [] }

/-- Embedding of WindowsActivityTracker.start_session. -/
def start_session (s : TrackerState) (app : String) (now : Nat) : TrackerState :=
  let p := s.db.log_app_usage app now
  { s with current_app := some app, session_start_time := some now,
           current_session_id := some p.2, db := p.1,
           events := s.events ++ [.opened app now] }

/-- Embedding of WindowsActivityTracker.end_session; rowids are at
least 1, so Python truthiness of current_session_id is its not being
None, and duration = int((end_time - start_time).total_seconds()) is
truncated natural subtraction of second timestamps. -/
def end_session (s : TrackerState) (now : Nat) : TrackerState :=
  let s1 :=
    match s.current_session_id, s.session_start_time with
    | some id, some start =>
        let duration := now - start
        if 1 ≤ duration then { s with db := s.db.update_app_usage id now duration }
        else s
    | _, _ => s
  { s1 with current_app := none, current_session_id := none,
            session_start_time := none, events := s1.events ++ [.closed] }

/-- Inputs observed by one iteration of the tracking loop: the idle
signal in seconds, the foreground window observation (none when
get_active_window_info returns (None, None)), and the current time. -/
structure PollInput where
  idle_seconds : Nat
  window : Option (String × String)
  now : Nat
deriving DecidableEq, Repr

/-- Embedding of WindowsActivityTracker.is_system_idle: strictly
greater than the threshold. -/
def is_system_idle (s : TrackerState) (idle_seconds : Nat) : Bool :=
  decide (idle_seconds > s.idle_threshold)

/-- Embedding of one iteration of WindowsActivityTracker.track_activity
(the loop body, without the sleeps). -/
def track_poll (s : TrackerState) (inp : PollInput) : TrackerState :=
  if is_system_idle s inp.idle_seconds then
    if s.current_app.isSome then end_session s inp.now else s
  else
    match inp.window with
    | some (window_title, process_name) =>
        if window_title ≠ "" ∧ process_name ≠ "" then
          let app_name := normalize_app_name window_title process_name
          if some app_name ≠ s.current_app then
            let s1 := if s.current_app.isSome then end_session s inp.now else s
            start_session s1 app_name inp.now
          else s
        else
          if s.current_app.isSome then end_session s inp.now else s
    | none =>
        if s.current_app.isSome then end_session s inp.now else s

/-- Embedding of WindowsActivityTracker.start_tracking (thread spawn
aside, it only flips is_running when not already running). -/
def start_tracking (s : TrackerState) : TrackerState :=
  if ¬ s.is_running then { s with is_running := true } else s

/-- Embedding of WindowsActivityTracker.stop_tracking. -/
def stop_tracking (s : TrackerState) (now : Nat) : TrackerState :=
  if s.is_running then
    let s1 := { s with is_running := false }
    if s1.current_app.isSome then end_session s1 now else s1
  else s

/-- One step of the tracker lifecycle: a loop iteration (which runs
only while is_running holds), a start_tracking call, or a
stop_tracking call. -/
inductive TStep where
  | poll (inp : PollInput)
  | start
  | stop (now : Nat)
deriving DecidableEq, Repr

/-- Apply one lifecycle step. -/
def trackStep (s : TrackerState) (st : TStep) : TrackerState :=
  match st with
  | .poll inp => if s.is_running then track_poll s inp else s
  | .start => start_tracking s
  | .stop now => stop_tracking s now

/-- Run a sequence of lifecycle steps. -/
def runSteps (s : TrackerState) (l : List TStep) : TrackerState :=
  l.foldl trackStep s

/-- Number of open in-memory sessions held by the tracker. -/
def openCount (s : TrackerState) : Nat :=
  if s.current_app.isSome then 1 else 0

/-- Replay a session-event trace counting open sessions; the result is
none exactly when some opened event occurs while a session is already
open without a closed event in between. -/
def replayOpen (n : Nat) : List SEvent → Option Nat
  | [] => some n
  | .closed :: es => replayOpen 0 es
  | .opened _ _ :: es =>
      match n with
      | 0 => replayOpen 1 es
      | _ + 1 => none

/-! ## Tracker lemmas -/

/-- Event trace of a state replays without an open-while-open violation
and ends with its open-session count. -/
def EventsWF (s : TrackerState) : Prop :=
  replayOpen 0 s.events = some (openCount s)

theorem replayOpen_append (a b : List SEvent) (n : Nat) :
    replayOpen n (a ++ b) =
      match replayOpen n a with
      | some m => replayOpen m b
      | none => none := by
  induction a generalizing n with
  | nil => rfl
  | cons e es ih =>
    cases e with
    | closed => simpa [replayOpen] using ih 0
    | opened app t =>
      cases n with
      | zero => simpa [replayOpen] using ih 1
      | succ k => rfl

theorem end_session_events (s : TrackerState) (now : Nat) :
    (end_session s now).events = s.events ++ [SEvent.closed] := by
  unfold end_session
  cases s.current_session_id <;> cases s.session_start_time <;> simp
  split <;> rfl

theorem end_session_current_app (s : TrackerState) (now : Nat) :
    (end_session s now).current_app = none := rfl

theorem end_session_wf (s : TrackerState) (now : Nat) (h : EventsWF s) :
    EventsWF (end_session s now) := by
  unfold EventsWF at *
  rw [end_session_events, replayOpen_append, h]
  cases hc : openCount s <;> simp [replayOpen, openCount, end_session_current_app]

theorem start_session_events (s : TrackerState) (app : String) (now : Nat) :
    (start_session s app now).events = s.events ++ [SEvent.opened app now] := rfl

theorem start_session_current_app (s : TrackerState) (app : String) (now : Nat) :
    (start_session s app now).current_app = some app := rfl

theorem start_session_wf (s : TrackerState) (app : String) (now : Nat)
    (h : EventsWF s) (hopen : s.current_app = none) :
    EventsWF (start_session s app now) := by
  unfold EventsWF at *
  rw [start_session_events, replayOpen_append, h]
  simp [openCount, hopen, replayOpen, start_session_current_app]

theorem track_poll_wf (s : TrackerState) (inp : PollInput) (h : EventsWF s) :
    EventsWF (track_poll s inp) := by
  have hcond : s.current_app.isSome = true ∨ s.current_app = none := by
    cases s.current_app <;> simp
  unfold track_poll
  dsimp only
  split
  · split
    · exact end_session_wf s inp.now h
    · exact h
  · split
    · split
      · split
        · split
          · exact start_session_wf _ _ _ (end_session_wf s inp.now h)
              (end_session_current_app s inp.now)
          · rcases hcond with hc | hc
            · simp_all
            · exact start_session_wf _ _ _ h hc
        · exact h
      · split
        · exact end_session_wf s inp.now h
        · exact h
    · split
      · exact end_session_wf s inp.now h
      · exact h

theorem start_tracking_events_wf (s : TrackerState) (h : EventsWF s) :
    EventsWF (start_tracking s) := by
  unfold start_tracking
  split
  · exact h
  · exact h

theorem stop_tracking_wf (s : TrackerState) (now : Nat) (h : EventsWF s) :
    EventsWF (stop_tracking s now) := by
  unfold stop_tracking
  dsimp only
  split
  · split
    · exact end_session_wf _ now h
    · exact h
  · exact h

theorem trackStep_wf (s : TrackerState) (st : TStep) (h : EventsWF s) :
    EventsWF (trackStep s st) := by
  cases st with
  | poll inp =>
    dsimp only [trackStep]
    split
    · exact track_poll_wf s inp h
    · exact h
  | start => exact start_tracking_events_wf s h
  | stop now => exact stop_tracking_wf s now h

theorem runSteps_wf (l : List TStep) (s : TrackerState) (h : EventsWF s) :
    EventsWF (runSteps s l) := by
  induction l generalizing s with
  | nil => exact h
  | cons st rest ih => exact ih _ (trackStep_wf _ _ h)

/-! ## Claim theorems for the session tracker -/

/-- C2: for every sequence of tracker lifecycle steps (polls, tracking
start, tracking stop) from the initial state, replaying the session
events succeeds: an opened event only ever occurs when no session is
open (a closed event always intervenes), so at most one session is open
at any time, and the count at the end matches the in-memory open state. -/
theorem tracker_at_most_one_open_session (l : List TStep) :
    replayOpen 0 (runSteps initTracker l).events
      = some (openCount (runSteps initTracker l)) :=
  runSteps_wf l initTracker rfl

/-- C1 counterexample: a run in which the first session is opened at
t = 0 and closed at t = 0 (duration 0, under 1 second) still hands the
persistence collaborator a log_app_usage record for that session at
session start; only the finalizing update is skipped, so the claim that
no record for the session is ever persisted is false. -/
theorem subsecond_session_start_record_persisted :
    (runSteps initTracker
        [.start, .poll ⟨0, some ("Doc1", "notepad.exe"), 0⟩,
         .poll ⟨0, some ("Doc2", "notepad.exe"), 0⟩]).events
        = [.opened "notepad (Doc1)" 0, .closed, .opened "notepad (Doc2)" 0]
      ∧ (runSteps initTracker
        [.start, .poll ⟨0, some ("Doc1", "notepad.exe"), 0⟩,
         .poll ⟨0, some ("Doc2", "notepad.exe"), 0⟩]).db.calls
        = [.log "notepad (Doc1)" 0, .log "notepad (Doc2)" 0] := by
  decide

/-- C1 amended: a session closed with duration under 1 second is never
finalized: closing it leaves the database (rows and persistence-call
trace) unchanged — no update_app_usage call is made for it — though the
start record inserted by log_app_usage when the session opened remains. -/
theorem subsecond_close_skips_persistence (s : TrackerState)
    (now id start : Nat)
    (hid : s.current_session_id = some id)
    (hst : s.session_start_time = some start)
    (hdur : now - start < 1) :
    (end_session s now).db = s.db ∧ (end_session s now).current_app = none := by
  have hlt : ¬ 1 ≤ now - start := by omega
  refine ⟨?_, end_session_current_app s now⟩
  unfold end_session
  rw [hid, hst]
  simp [hlt]

theorem subsecond_close_skips_persistence_witness :
    ((0 : Nat) - 0 < 1)
      ∧ (end_session
          { current_app := some "notepad (Doc1)", current_session_id := some 1,
            session_start_time := some 0, is_running := true, idle_threshold := 300,
            db := ⟨[⟨"notepad (Doc1)", 0, none, none⟩], [.log "notepad (Doc1)" 0]⟩,
            events := [.opened "notepad (Doc1)" 0] } 0).db
          = ⟨[⟨"notepad (Doc1)", 0, none, none⟩], [.log "notepad (Doc1)" 0]⟩
      ∧ (end_session
          { current_app := some "notepad (Doc1)", current_session_id := some 1,
            session_start_time := some 0, is_running := true, idle_threshold := 300,
            db := ⟨[⟨"notepad (Doc1)", 0, none, none⟩], [.log "notepad (Doc1)" 0]⟩,
            events := [.opened "notepad (Doc1)" 0] } 0).current_app = none :=
  ⟨by decide,
   subsecond_close_skips_persistence _ 0 1 0 rfl rfl (by decide)⟩

/-- C7 counterexample: with the observed idle seconds exactly equal to
the threshold (300 ≥ 300 in the claim's sense) and a session open, the
poll does not close the session — is_system_idle compares with strict
greater-than, so the claim stated with greater-or-equal is false. -/
theorem idle_at_threshold_does_not_close :
    ((runSteps initTracker
        [.start, .poll ⟨0, some ("Doc1", "notepad.exe"), 0⟩,
         .poll ⟨300, some ("Doc1", "notepad.exe"), 10⟩]).current_app
        = some "notepad (Doc1)")
      ∧ (runSteps initTracker
        [.start, .poll ⟨0, some ("Doc1", "notepad.exe"), 0⟩,
         .poll ⟨300, some ("Doc1", "notepad.exe"), 10⟩]).events
        = [.opened "notepad (Doc1)" 0]
      ∧ 300 ≥ initTracker.idle_threshold := by
  decide

/-- C7 amended: for every poll whose observed idle seconds are strictly
greater than the idle threshold, if a session is open the poll closes it
and opens no new one (the only session event it appends is a single
closed event), even if a foreground identity is observable. -/
theorem idle_above_threshold_closes (s : TrackerState) (inp : PollInput)
    (hidle : s.idle_threshold < inp.idle_seconds)
    (hopen : s.current_app.isSome = true) :
    (track_poll s inp).current_app = none
      ∧ (track_poll s inp).events = s.events ++ [SEvent.closed] := by
  have hb : is_system_idle s inp.idle_seconds = true := by
    simp [is_system_idle, hidle]
  unfold track_poll
  rw [hb, hopen]
  simp only [eq_self_iff_true, if_true]
  exact ⟨end_session_current_app s inp.now, end_session_events s inp.now⟩

theorem idle_above_threshold_closes_witness :
    (track_poll
        (runSteps initTracker [.start, .poll ⟨0, some ("Doc1", "notepad.exe"), 0⟩])
        ⟨301, some ("Doc1", "notepad.exe"), 10⟩).current_app = none
      ∧ (track_poll
        (runSteps initTracker [.start, .poll ⟨0, some ("Doc1", "notepad.exe"), 0⟩])
        ⟨301, some ("Doc1", "notepad.exe"), 10⟩).events
        = (runSteps initTracker
            [.start, .poll ⟨0, some ("Doc1", "notepad.exe"), 0⟩]).events
          ++ [SEvent.closed] :=
  idle_above_threshold_closes _ _ (by decide) (by decide)

/-! ## Calendar dates for the daily summary rule -/

/-- Calendar date. -/
structure Date where
  year : Nat
  month : Nat
  day : Nat
deriving DecidableEq, Repr

/-- Gregorian leap-year rule. -/
def isLeapYear (y : Nat) : Bool :=
  decide ((y % 4 = 0 ∧ ¬ y % 100 = 0) ∨ y % 400 = 0)

/-- Number of days of month m in year y. -/
def daysInMonth (y m : Nat) : Nat :=
  if m = 2 then (if isLeapYear y then 29 else 28)
  else if m = 4 ∨ m = 6 ∨ m = 9 ∨ m = 11 then 30
  else 31

/-- Days in the months of year y strictly before month m. -/
def cumulativeDays (y m : Nat) : Nat :=
  (List.range (m - 1)).foldl (fun acc i => acc + daysInMonth y (i + 1)) 0

/-- Proleptic Gregorian day number (like Python date.toordinal for valid
dates), used to compare datetimes and take their difference. -/
def Date.toDayNumber (d : Date) : Nat :=
  let y := d.year - 1
  365 * y + y / 4 - y / 100 + y / 400 + cumulativeDays d.year d.month + d.day

/-- Date plus time of day; embeds datetime.datetime at second
granularity. -/
structure DateTime where
  date : Date
  tod : Tod
deriving DecidableEq, Repr

/-- Absolute second count of a datetime. -/
def DateTime.toSecondsAbs (dt : DateTime) : Nat :=
  dt.date.toDayNumber * 86400 + dt.tod.toSeconds

/-- Datetime comparison; agrees with Python datetime comparison on
valid dates. -/
def dtLe (a b : DateTime) : Bool :=
  decide (a.toSecondsAbs ≤ b.toSecondsAbs)

/-- Embedding of datetime.combine(date, time). -/
def datetime_combine (d : Date) (t : Tod) : DateTime := ⟨d, t⟩

/-- Embedding of datetime.replace(day=d): Python validates the new day
against the month and raises ValueError when it is out of range, which
the model renders as none. -/
def datetime_replace_day (dt : DateTime) (d : Nat) : Option DateTime :=
  if 1 ≤ d ∧ d ≤ daysInMonth dt.date.year dt.date.month then
    some ⟨⟨dt.date.year, dt.date.month, d⟩, dt.tod⟩
  else none

/-! ## Reminder scheduler (src/tracker/scheduler.py) -/

/-- Embedding of the ReminderScheduler fields the scheduling logic
touches (settings, is_modal_notifier, timers, is_running); timers maps
a timer name to the delay in seconds of the armed threading.Timer.
The start_time field is display-only and not modelled. -/
structure SchedState where
  settings : Settings
  is_modal_notifier : Bool
  timers : List (String × Int)
  is_running : Bool
deriving DecidableEq, Repr

/-- Dictionary write self.timers[name] = timer. -/
def setTimer (m : List (String × Int)) (k : String) (v : Int) : List (String × Int) :=
  m.filter (fun p => p.1 != k) ++ [(k, v)]

/-- Dictionary read self.timers.get(name). -/
def getTimer (m : List (String × Int)) (k : String) : Option Int :=
  (m.find? (fun p => p.1 == k)).map Prod.snd

/-- Embedding of the arming part of schedule_break_reminder. -/
def schedule_break_reminder (s : SchedState) : SchedState :=
  { s with timers := setTimer s.timers "break" ((s.settings.break_interval : Int) * 60) }

/-- Embedding of the arming part of schedule_hydration_reminder. -/
def schedule_hydration_reminder (s : SchedState) : SchedState :=
  { s with timers := setTimer s.timers "hydration" ((s.settings.hydration_interval : Int) * 60) }

/-- Embedding of the arming part of schedule_inspiration_reminder. -/
def schedule_inspiration_reminder (s : SchedState) : SchedState :=
  { s with timers := setTimer s.timers "inspiration" ((s.settings.inspiration_interval : Int) * 60) }

/-- Embedding of the arming part of schedule_eye_strain_reminder
(fixed 20 minutes). -/
def schedule_eye_strain_reminder (s : SchedState) : SchedState :=
  { s with timers := setTimer s.timers "eye_strain" (20 * 60) }

/-- Embedding of the arming part of schedule_posture_reminder
(fixed 60 minutes). -/
def schedule_posture_reminder (s : SchedState) : SchedState :=
  { s with timers := setTimer s.timers "posture" (60 * 60) }

/-- Embedding of the arming part of schedule_mood_checkin
(fixed 4 hours). -/
def schedule_mood_checkin (s : SchedState) : SchedState :=
  { s with timers := setTimer s.timers "mood_checkin" (4 * 60 * 60) }

/-- Delay computed by schedule_daily_summary: combine today with the
configured time-of-day; if that target has passed, move to the next day
via datetime.replace(day=day+1); none when fromisoformat or replace
raises (the surrounding try swallows it and no timer is armed). -/
def dailySummaryDelay (st : Settings) (now : DateTime) : Option Int :=
  match time_fromisoformat st.daily_summary_time with
  | none => none
  | some t =>
      let target := datetime_combine now.date t
      let target2 :=
        if dtLe target now then datetime_replace_day target (target.date.day + 1)
        else some target
      match target2 with
      | none => none
      | some tgt => some ((tgt.toSecondsAbs : Int) - (now.toSecondsAbs : Int))

/-- Embedding of the arming part of schedule_daily_summary: arm the
timer with the computed delay, or change nothing when the computation
raised. -/
def schedule_daily_summary (s : SchedState) (now : DateTime) : SchedState :=
  match dailySummaryDelay s.settings now with
  | none => s
  | some d => { s with timers := setTimer s.timers "daily_summary" d }

/-- Embedding of ReminderScheduler.start_all_reminders. -/
def start_all_reminders (s : SchedState) (now : DateTime) : SchedState :=
  if s.is_running then s
  else
    let s1 := { s with is_running := true }
    let s2 := schedule_break_reminder s1
    let s3 := schedule_hydration_reminder s2
    let s4 := schedule_inspiration_reminder s3
    let s5 := schedule_daily_summary s4 now
    if s.is_modal_notifier then
      schedule_mood_checkin (schedule_posture_reminder (schedule_eye_strain_reminder s5))
    else s5

/-- Embedding of ReminderScheduler.stop_all_reminders: cancel every
timer and clear the dictionary. -/
def stop_all_reminders (s : SchedState) : SchedState :=
  if ¬ s.is_running then s
  else { s with is_running := false, timers := [] }

/-- Outcome of invoking the presentation collaborator. -/
inductive PresOutcome where
  | ok
  | raises
deriving DecidableEq, Repr

/-- Embedding of the send_reminder callback of schedule_break_reminder,
fired at a wall-clock weekday and time of day: if eligible, invoke the
presentation collaborator (Bool result records that it was invoked);
there is no exception handler, so a raising collaborator propagates out
of the callback before the rescheduling line runs. -/
def send_reminder_break (s : SchedState) (weekday : Nat) (now : Tod)
    (pres : PresOutcome) : Except String (SchedState × Bool) :=
  if should_send_reminder s.settings weekday now then
    match pres with
    | .ok => .ok (schedule_break_reminder s, true)
    | .raises => .error "presentation raised"
  else .ok (schedule_break_reminder s, false)

/-- Embedding of the send_reminder callback of
schedule_inspiration_reminder; same shape as the break callback. -/
def send_reminder_inspiration (s : SchedState) (weekday : Nat) (now : Tod)
    (pres : PresOutcome) : Except String (SchedState × Bool) :=
  if should_send_reminder s.settings weekday now then
    match pres with
    | .ok => .ok (schedule_inspiration_reminder s, true)
    | .raises => .error "presentation raised"
  else .ok (schedule_inspiration_reminder s, false)

/-- Embedding of the send_reminder callback of
schedule_hydration_reminder; same shape as the break callback. -/
def send_reminder_hydration (s : SchedState) (weekday : Nat) (now : Tod)
    (pres : PresOutcome) : Except String (SchedState × Bool) :=
  if should_send_reminder s.settings weekday now then
    match pres with
    | .ok => .ok (schedule_hydration_reminder s, true)
    | .raises => .error "presentation raised"
  else .ok (schedule_hydration_reminder s, false)

/-- Embedding of the send_reminder callback of
schedule_eye_strain_reminder; same shape as the break callback. -/
def send_reminder_eye_strain (s : SchedState) (weekday : Nat) (now : Tod)
    (pres : PresOutcome) : Except String (SchedState × Bool) :=
  if should_send_reminder s.settings weekday now then
    match pres with
    | .ok => .ok (schedule_eye_strain_reminder s, true)
    | .raises => .error "presentation raised"
  else .ok (schedule_eye_strain_reminder s, false)

/-- Embedding of the send_reminder callback of
schedule_posture_reminder; same shape as the break callback. -/
def send_reminder_posture (s : SchedState) (weekday : Nat) (now : Tod)
    (pres : PresOutcome) : Except String (SchedState × Bool) :=
  if should_send_reminder s.settings weekday now then
    match pres with
    | .ok => .ok (schedule_posture_reminder s, true)
    | .raises => .error "presentation raised"
  else .ok (schedule_posture_reminder s, false)

/-- Embedding of the send_reminder callback of schedule_mood_checkin;
same shape as the break callback. -/
def send_reminder_mood_checkin (s : SchedState) (weekday : Nat) (now : Tod)
    (pres : PresOutcome) : Except String (SchedState × Bool) :=
  if should_send_reminder s.settings weekday now then
    match pres with
    | .ok => .ok (schedule_mood_checkin s, true)
    | .raises => .error "presentation raised"
  else .ok (schedule_mood_checkin s, false)

/-- Embedding of the send_summary callback of schedule_daily_summary:
unlike the send_reminder callbacks, its body has no should_send_reminder
check — notifier.send_daily_summary is invoked unconditionally inside
the try (the Bool records that invocation), the try/except swallows any
failure of the summary computation or of the presentation collaborator,
and the callback always falls through to schedule_daily_summary. -/
def send_summary (s : SchedState) (now : DateTime) (_pres : PresOutcome) :
    SchedState × Bool :=
  (schedule_daily_summary s now, true)

deriving instance DecidableEq for Except

/-! ## Claim theorems for the reminder scheduler -/

/-- C3: evaluating the break and inspiration callbacks at an eligible
firing time (Tuesday 10:00, default settings) with a raising
presentation collaborator: the exception propagates out of the callback
before the rescheduling line, so the kind is not re-armed — while the
daily summary callback, whose body catches exceptions, still re-arms.
This contradicts the claim that every kind re-arms regardless of
presentation outcome. -/
theorem presentation_failure_prevents_rearm :
    send_reminder_break ⟨initialSettings, false, [], true⟩ 1 ⟨10, 0, 0⟩ .raises
      = .error "presentation raised"
    ∧ send_reminder_inspiration ⟨initialSettings, false, [], true⟩ 1 ⟨10, 0, 0⟩ .raises
      = .error "presentation raised"
    ∧ getTimer (send_summary ⟨initialSettings, false, [], true⟩
        ⟨⟨2025, 3, 10⟩, ⟨10, 0, 0⟩⟩ .raises).1.timers "daily_summary"
      = some 25200 := by
  decide

/-- C4: after stop_all_reminders returns (is_running is false and the
timers dictionary is cleared), a break callback that was already
in-flight and completes its firing unconditionally re-arms its kind:
the callback has no is_running guard, so a new break timer is armed
after stop. This contradicts the claim that an in-flight callback never
schedules a successor after stop_all returns. -/
theorem inflight_callback_rearms_after_stop :
    (stop_all_reminders ⟨initialSettings, false, [("break", 2700)], true⟩).is_running
      = false
    ∧ (stop_all_reminders ⟨initialSettings, false, [("break", 2700)], true⟩).timers
      = []
    ∧ send_reminder_break
        (stop_all_reminders ⟨initialSettings, false, [("break", 2700)], true⟩)
        1 ⟨10, 0, 0⟩ .ok
      = .ok (⟨initialSettings, false, [("break", 2700)], false⟩, true) := by
  decide

/-- C5: on the last day of a month with the configured time already
passed (2025-01-31 18:00, daily_summary_time 17:00), the next-fire
computation executes replace(day=32), which raises ValueError; the
exception is caught and no timer is armed, so the scheduling step does
not succeed for every date. On a non-month-end date (2025-01-30 18:00)
the rule does arm the timer for tomorrow 17:00 (82800 seconds later). -/
theorem daily_summary_month_end_not_armed :
    dailySummaryDelay initialSettings ⟨⟨2025, 1, 31⟩, ⟨18, 0, 0⟩⟩ = none
    ∧ schedule_daily_summary ⟨initialSettings, false, [], true⟩
        ⟨⟨2025, 1, 31⟩, ⟨18, 0, 0⟩⟩
      = ⟨initialSettings, false, [], true⟩
    ∧ dailySummaryDelay initialSettings ⟨⟨2025, 1, 30⟩, ⟨18, 0, 0⟩⟩ = some 82800
    ∧ dailySummaryDelay initialSettings ⟨⟨2025, 3, 10⟩, ⟨8, 0, 0⟩⟩ = some 32400 := by
  decide

theorem should_send_reminder_eq (st : Settings) (weekday : Nat) (now : Tod)
    (ws we : Tod)
    (hws : time_fromisoformat st.work_start_time = some ws)
    (hwe : time_fromisoformat st.work_end_time = some we) :
    should_send_reminder st weekday now
      = (st.notifications_enabled
          && (!st.work_days_only || decide (weekday < 5))
          && (decide (ws.toSeconds ≤ now.toSeconds)
              && decide (now.toSeconds ≤ we.toSeconds))) := by
  unfold should_send_reminder is_work_day is_work_hours
  rw [hws, hwe]
  cases hn : st.notifications_enabled <;>
    cases hw : st.work_days_only <;>
    cases h5 : decide (weekday < 5) <;>
    cases h1 : decide (ws.toSeconds ≤ now.toSeconds) <;>
    cases h2 : decide (now.toSeconds ≤ we.toSeconds) <;>
    simp [hn, hw, h5, h1, h2]

/-- C6 counterexample: the daily-summary firing has no eligibility
check. At Saturday 2025-03-15 10:00 with default settings
(work_days_only true, work 09:00-18:00) the eligibility predicate is
false, yet the summary callback invokes the presentation collaborator
(notifier.send_daily_summary is called unconditionally inside its try
block); so it is not the case that every timer firing presents only
when the eligibility predicate holds. -/
theorem daily_summary_presents_when_ineligible :
    should_send_reminder initialSettings 5 ⟨10, 0, 0⟩ = false
    ∧ (send_summary ⟨initialSettings, false, [], true⟩
        ⟨⟨2025, 3, 15⟩, ⟨10, 0, 0⟩⟩ .ok).2 = true := by
  decide

/-- C6 amended: for every firing of the six gated reminder kinds
(break, hydration, inspiration, eye_strain, posture, mood_checkin) with
a working presentation collaborator and parseable work-hour bounds, the
reminder is presented if and only if the eligibility predicate holds:
notifications_enabled, and (work_days_only is off or the weekday is
Monday through Friday, i.e. weekday < 5 with 0 = Monday), and the
current time-of-day lies in the inclusive interval
[work_start_time, work_end_time] — e.g. a Saturday 10:00 firing does
not present and a Tuesday 10:00 firing does — and the callback re-arms
either way; the daily-summary firing, by contrast, invokes the
presentation collaborator unconditionally, with no eligibility check. -/
theorem reminder_presented_iff_eligible (s : SchedState) (weekday : Nat)
    (now : Tod) (dtnow : DateTime) (ws we : Tod)
    (hws : time_fromisoformat s.settings.work_start_time = some ws)
    (hwe : time_fromisoformat s.settings.work_end_time = some we) :
    (send_reminder_break s weekday now .ok
      = .ok (schedule_break_reminder s,
          s.settings.notifications_enabled
            && (!s.settings.work_days_only || decide (weekday < 5))
            && (decide (ws.toSeconds ≤ now.toSeconds)
                && decide (now.toSeconds ≤ we.toSeconds))))
    ∧ (send_reminder_hydration s weekday now .ok
      = .ok (schedule_hydration_reminder s,
          s.settings.notifications_enabled
            && (!s.settings.work_days_only || decide (weekday < 5))
            && (decide (ws.toSeconds ≤ now.toSeconds)
                && decide (now.toSeconds ≤ we.toSeconds))))
    ∧ (send_reminder_inspiration s weekday now .ok
      = .ok (schedule_inspiration_reminder s,
          s.settings.notifications_enabled
            && (!s.settings.work_days_only || decide (weekday < 5))
            && (decide (ws.toSeconds ≤ now.toSeconds)
                && decide (now.toSeconds ≤ we.toSeconds))))
    ∧ (send_reminder_eye_strain s weekday now .ok
      = .ok (schedule_eye_strain_reminder s,
          s.settings.notifications_enabled
            && (!s.settings.work_days_only || decide (weekday < 5))
            && (decide (ws.toSeconds ≤ now.toSeconds)
                && decide (now.toSeconds ≤ we.toSeconds))))
    ∧ (send_reminder_posture s weekday now .ok
      = .ok (schedule_posture_reminder s,
          s.settings.notifications_enabled
            && (!s.settings.work_days_only || decide (weekday < 5))
            && (decide (ws.toSeconds ≤ now.toSeconds)
                && decide (now.toSeconds ≤ we.toSeconds))))
    ∧ (send_reminder_mood_checkin s weekday now .ok
      = .ok (schedule_mood_checkin s,
          s.settings.notifications_enabled
            && (!s.settings.work_days_only || decide (weekday < 5))
            && (decide (ws.toSeconds ≤ now.toSeconds)
                && decide (now.toSeconds ≤ we.toSeconds))))
    ∧ (send_summary s dtnow .ok).2 = true := by
  refine ⟨?_, ?_, ?_, ?_, ?_, ?_, rfl⟩
  all_goals
    simp only [send_reminder_break, send_reminder_hydration,
      send_reminder_inspiration, send_reminder_eye_strain,
      send_reminder_posture, send_reminder_mood_checkin]
    rw [should_send_reminder_eq s.settings weekday now ws we hws hwe]
    cases hB : (s.settings.notifications_enabled
        && (!s.settings.work_days_only || decide (weekday < 5))
        && (decide (ws.toSeconds ≤ now.toSeconds)
            && decide (now.toSeconds ≤ we.toSeconds))) <;>
      simp [hB]

theorem reminder_presented_iff_eligible_witness :
    send_reminder_break ⟨initialSettings, false, [], true⟩ 5 ⟨10, 0, 0⟩ .ok
      = .ok (schedule_break_reminder ⟨initialSettings, false, [], true⟩, false)
    ∧ send_reminder_eye_strain ⟨initialSettings, false, [], true⟩ 5 ⟨10, 0, 0⟩ .ok
      = .ok (schedule_eye_strain_reminder ⟨initialSettings, false, [], true⟩, false)
    ∧ send_reminder_break ⟨initialSettings, false, [], true⟩ 1 ⟨10, 0, 0⟩ .ok
      = .ok (schedule_break_reminder ⟨initialSettings, false, [], true⟩, true)
    ∧ (send_summary ⟨initialSettings, false, [], true⟩
        ⟨⟨2025, 3, 15⟩, ⟨10, 0, 0⟩⟩ .ok).2 = true := by
  refine ⟨?_, ?_, ?_, ?_⟩
  · have h := (reminder_presented_iff_eligible ⟨initialSettings, false, [], true⟩
      5 ⟨10, 0, 0⟩ ⟨⟨2025, 3, 15⟩, ⟨10, 0, 0⟩⟩ ⟨9, 0, 0⟩ ⟨18, 0, 0⟩
      (by decide) (by decide)).1
    simpa using h
  · have h := (reminder_presented_iff_eligible ⟨initialSettings, false, [], true⟩
      5 ⟨10, 0, 0⟩ ⟨⟨2025, 3, 15⟩, ⟨10, 0, 0⟩⟩ ⟨9, 0, 0⟩ ⟨18, 0, 0⟩
      (by decide) (by decide)).2.2.2.1
    simpa using h
  · have h := (reminder_presented_iff_eligible ⟨initialSettings, false, [], true⟩
      1 ⟨10, 0, 0⟩ ⟨⟨2025, 3, 15⟩, ⟨10, 0, 0⟩⟩ ⟨9, 0, 0⟩ ⟨18, 0, 0⟩
      (by decide) (by decide)).1
    simpa using h
  · exact (reminder_presented_iff_eligible ⟨initialSettings, false, [], true⟩
      1 ⟨10, 0, 0⟩ ⟨⟨2025, 3, 15⟩, ⟨10, 0, 0⟩⟩ ⟨9, 0, 0⟩ ⟨18, 0, 0⟩
      (by decide) (by decide)).2.2.2.2.2.2

/-- Definition following the words of the claim for comparison with the
code: an eligibility evaluation in which a malformed time-of-day bound
behaves as if that single offending setting had its default value
(work_start_time 09:00, work_end_time 18:00) for that evaluation. -/
def claimed_is_work_hours_single_default (st : Settings) (now : Tod) : Bool :=
  let ws := match time_fromisoformat st.work_start_time with
    | some w => w
    | none => ⟨9, 0, 0⟩
  let we := match time_fromisoformat st.work_end_time with
    | some w => w
    | none => ⟨18, 0, 0⟩
  decide (ws.toSeconds ≤ now.toSeconds) && decide (now.toSeconds ≤ we.toSeconds)

/-- C8 counterexample: with work_start_time the malformed string
"invalid", work_end_time "18:00" and current time 20:00, the code's
is_work_hours returns true (the whole check defaults to allowing), while
the claimed behaviour of substituting the default 09:00 for the single
offending setting yields false (20:00 is outside 09:00-18:00); so the
evaluation does not behave as if the offending setting had its default. -/
theorem malformed_time_not_single_default :
    is_work_hours { initialSettings with work_start_time := "invalid" } ⟨20, 0, 0⟩
      = true
    ∧ claimed_is_work_hours_single_default
        { initialSettings with work_start_time := "invalid" } ⟨20, 0, 0⟩
      = false := by
  decide

/-- C8 amended: an eligibility evaluation with a malformed
work_start_time or work_end_time does not crash; instead the entire
work-hours check returns true for that evaluation (the exception handler
defaults to allowing reminders), rather than substituting the default
for the single offending setting. -/
theorem malformed_time_whole_check_true (st : Settings) (now : Tod)
    (h : time_fromisoformat st.work_start_time = none
        ∨ time_fromisoformat st.work_end_time = none) :
    is_work_hours st now = true := by
  unfold is_work_hours
  rcases h with h | h
  · rw [h]
  · rw [h]
    first
    | rfl
    | cases time_fromisoformat st.work_start_time <;> rfl

theorem malformed_time_whole_check_true_witness :
    is_work_hours { initialSettings with work_start_time := "invalid" } ⟨20, 0, 0⟩
      = true :=
  malformed_time_whole_check_true _ _ (Or.inl (by decide))

theorem find?_setTimer_filtered (m : List (String × Int)) (k : String) :
    (m.filter (fun p => p.1 != k)).find? (fun p => p.1 == k) = none := by
  rw [List.find?_eq_none]
  intro x hx
  have hmem := List.mem_filter.mp hx
  simpa using hmem.2

theorem getTimer_setTimer_same (m : List (String × Int)) (k : String) (v : Int) :
    getTimer (setTimer m k v) k = some v := by
  unfold getTimer setTimer
  rw [List.find?_append, find?_setTimer_filtered]
  simp [List.find?]

theorem getTimer_setTimer_other (m : List (String × Int)) (k k2 : String)
    (v : Int) (h : k2 ≠ k) :
    getTimer (setTimer m k v) k2 = getTimer m k2 := by
  unfold getTimer setTimer
  rw [List.find?_append]
  have hk : (k == k2) = false := beq_eq_false_iff_ne.mpr (Ne.symm h)
  have h2 : List.find? (fun p => p.1 == k2) [(k, v)] = none := by
    simp [List.find?, hk]
  rw [h2]
  have h3 : (m.filter (fun p => p.1 != k)).find? (fun p => p.1 == k2)
      = m.find? (fun p => p.1 == k2) := by
    induction m with
    | nil => rfl
    | cons a rest ih =>
      by_cases ha : a.1 = k
      · simp [List.filter_cons, ha, List.find?_cons, hk, ih]
      · by_cases ha2 : a.1 = k2
        · simp [List.filter_cons, ha, List.find?_cons, ha2, h]
        · simp [List.filter_cons, ha, List.find?_cons, ha2, ih]
  rw [h3]
  cases m.find? (fun p => p.1 == k2) <;> rfl

theorem getTimer_setTimer (m : List (String × Int)) (k k2 : String) (v : Int) :
    getTimer (setTimer m k v) k2 = if k2 = k then some v else getTimer m k2 := by
  by_cases h : k2 = k
  · rw [if_pos h, h]
    exact getTimer_setTimer_same m k v
  · rw [if_neg h]
    exact getTimer_setTimer_other m k k2 v h

/-- C9 counterexample: starting all reminders with a non-modal notifier
(from an idle scheduler with empty timers, on 2025-03-10 08:00) arms
exactly break, hydration, inspiration and daily_summary; no timer is
armed for eye_strain, posture or mood_checkin, so start_all does not arm
a timer for every known reminder kind regardless of which notifier
implementation is in use (the daily summary delay, 32400 s to 17:00, is
also not now + interval for any configured interval). -/
theorem start_all_nonmodal_missing_wellness :
    (start_all_reminders ⟨initialSettings, false, [], false⟩
        ⟨⟨2025, 3, 10⟩, ⟨8, 0, 0⟩⟩).timers
      = [("break", 2700), ("hydration", 7200), ("inspiration", 10800),
         ("daily_summary", 32400)] := by
  decide

/-- C9 amended: when not already running, start_all arms break,
hydration and inspiration at their configured interval in seconds,
arms daily_summary per its time-of-day rule whenever that computation
succeeds (otherwise that timer is left as it was), and arms eye_strain
(20 min), posture (60 min) and mood_checkin (4 h) exactly when the
notifier is modal; and it is idempotent: when already running it
changes nothing. -/
theorem start_all_reminders_by_kind (s : SchedState) (now : DateTime) :
    (s.is_running = true → start_all_reminders s now = s)
    ∧ (s.is_running = false →
        getTimer (start_all_reminders s now).timers "break"
            = some ((s.settings.break_interval : Int) * 60)
        ∧ getTimer (start_all_reminders s now).timers "hydration"
            = some ((s.settings.hydration_interval : Int) * 60)
        ∧ getTimer (start_all_reminders s now).timers "inspiration"
            = some ((s.settings.inspiration_interval : Int) * 60)
        ∧ getTimer (start_all_reminders s now).timers "daily_summary"
            = (match dailySummaryDelay s.settings now with
               | some d => some d
               | none => getTimer s.timers "daily_summary")
        ∧ (s.is_modal_notifier = true →
            getTimer (start_all_reminders s now).timers "eye_strain" = some 1200
            ∧ getTimer (start_all_reminders s now).timers "posture" = some 3600
            ∧ getTimer (start_all_reminders s now).timers "mood_checkin" = some 14400)
        ∧ (s.is_modal_notifier = false →
            getTimer (start_all_reminders s now).timers "eye_strain"
              = getTimer s.timers "eye_strain"
            ∧ getTimer (start_all_reminders s now).timers "posture"
              = getTimer s.timers "posture"
            ∧ getTimer (start_all_reminders s now).timers "mood_checkin"
              = getTimer s.timers "mood_checkin")
        ∧ (start_all_reminders s now).is_running = true) := by
  constructor
  · intro h
    unfold start_all_reminders
    rw [if_pos h]
  · intro h
    cases hd : dailySummaryDelay s.settings now <;>
    cases hm : s.is_modal_notifier <;>
    simp [start_all_reminders, h, hm, schedule_break_reminder,
          schedule_hydration_reminder, schedule_inspiration_reminder,
          schedule_eye_strain_reminder, schedule_posture_reminder,
          schedule_mood_checkin, schedule_daily_summary, hd, getTimer_setTimer]

theorem start_all_reminders_by_kind_witness :
    getTimer (start_all_reminders ⟨initialSettings, true, [], false⟩
        ⟨⟨2025, 3, 10⟩, ⟨8, 0, 0⟩⟩).timers "eye_strain" = some 1200
    ∧ getTimer (start_all_reminders ⟨initialSettings, false, [], false⟩
        ⟨⟨2025, 3, 10⟩, ⟨8, 0, 0⟩⟩).timers "break" = some 2700
    ∧ start_all_reminders ⟨initialSettings, false, [], true⟩
        ⟨⟨2025, 3, 10⟩, ⟨8, 0, 0⟩⟩ = ⟨initialSettings, false, [], true⟩ := by
  refine ⟨?_, ?_, ?_⟩
  · exact (((start_all_reminders_by_kind ⟨initialSettings, true, [], false⟩
      ⟨⟨2025, 3, 10⟩, ⟨8, 0, 0⟩⟩).2 rfl).2.2.2.2.1 rfl).1
  · have hb := ((start_all_reminders_by_kind ⟨initialSettings, false, [], false⟩
      ⟨⟨2025, 3, 10⟩, ⟨8, 0, 0⟩⟩).2 rfl).1
    simpa using hb
  · exact (start_all_reminders_by_kind ⟨initialSettings, false, [], true⟩
      ⟨⟨2025, 3, 10⟩, ⟨8, 0, 0⟩⟩).1 rfl

/-- C10: for every nonnegative integer number of seconds n,
seconds_to_hms n returns (hours, minutes, secs) with
hours * 3600 + minutes * 60 + secs = n, 0 ≤ minutes < 60 and
0 ≤ secs < 60. -/
theorem seconds_to_hms_spec (n : Int) (_h : 0 ≤ n) :
    (seconds_to_hms n).1 * 3600 + (seconds_to_hms n).2.1 * 60
        + (seconds_to_hms n).2.2 = n
    ∧ 0 ≤ (seconds_to_hms n).2.1 ∧ (seconds_to_hms n).2.1 < 60
    ∧ 0 ≤ (seconds_to_hms n).2.2 ∧ (seconds_to_hms n).2.2 < 60 := by
  simp only [seconds_to_hms]
  rw [Int.fmod_eq_emod _ (by norm_num), Int.fmod_eq_emod _ (by norm_num),
      Int.fdiv_eq_ediv _ (by norm_num), Int.fdiv_eq_ediv _ (by norm_num)]
  omega

theorem seconds_to_hms_spec_witness :
    (0 : Int) ≤ 3661
    ∧ ((seconds_to_hms 3661).1 * 3600 + (seconds_to_hms 3661).2.1 * 60
          + (seconds_to_hms 3661).2.2 = 3661
       ∧ 0 ≤ (seconds_to_hms 3661).2.1 ∧ (seconds_to_hms 3661).2.1 < 60
       ∧ 0 ≤ (seconds_to_hms 3661).2.2 ∧ (seconds_to_hms 3661).2.2 < 60) :=
  ⟨by decide, seconds_to_hms_spec 3661 (by decide)⟩
